import Mathlib

/-!
Formal model of the adaptive batch-generation scheduler in
`src/engine/generation.py` (class `HFModel`).

The embedding follows the source function by function.  External
collaborators (the HuggingFace model, tokenizer, prompt template and
stopping module, which live outside `src/`) are represented by oracles
and records of the data the scheduler actually reads from them; the
scheduler logic itself (estimation, batch planning, OOM recovery,
config resolution, request collapsing, output shaping) is translated
directly from the source.

Numeric conventions: Python floats are modelled as exact rationals.
The decimal literals appearing in the source (0.5, 0.8, 0.95, ...) are
exactly representable choices for which the float computations the
source performs agree with exact rational arithmetic at every input we
reason about; in particular `math.floor(b * 0.8)` for a Python int `b`
equals `4 * b / 5` in natural-number division (see the comment at
`shrinkBatch`).  Python `x // y` on floats is `Int.floor (x / y)`.
-/

/-- A persisted batch-memory-footprint table
(`memory_estimator/<model_name>/<dtype>.json`): observation pairs
(sequence length, memory in GiB) together with the
`only_scale_with_input_size` flag, which the source pops from the JSON
dict with default `False`.  `none` at use sites models the
`FileNotFoundError` path (no calibration file). -/
structure FootprintTable where
  points : List (ℚ × ℚ)
  only_scale_with_input_size : Bool

/-- Insert a pair into a list that is sorted by first component. -/
def insertByFst (p : ℚ × ℚ) : List (ℚ × ℚ) → List (ℚ × ℚ)
  | [] => [p]
  | q :: qs => if p.1 ≤ q.1 then p :: q :: qs else q :: insertByFst p qs

/-- Sort the observation pairs by sequence length ascending: the
`np.argsort` step of `infer_best_batch_size`. -/
def sortByFst (l : List (ℚ × ℚ)) : List (ℚ × ℚ) := l.foldr insertByFst []

/-- Result of `scipy.stats.linregress`: ordinary-least-squares line
`memory = intercept + slope * length`; `r2` is `rvalue ** 2`, which is
the rational `sxy ^ 2 / (sxx * syy)` and therefore needs no square
root. -/
structure LinFit where
  intercept : ℚ
  slope : ℚ
  r2 : ℚ

/-- Ordinary least squares over the observation pairs, exactly the
quantities `scipy.stats.linregress` returns (in exact arithmetic). -/
def linregress (pts : List (ℚ × ℚ)) : LinFit :=
  let n : ℚ := pts.length
  let xbar : ℚ := (pts.map Prod.fst).sum / n
  let ybar : ℚ := (pts.map Prod.snd).sum / n
  let sxx : ℚ := (pts.map (fun p => (p.1 - xbar) * (p.1 - xbar))).sum
  let syy : ℚ := (pts.map (fun p => (p.2 - ybar) * (p.2 - ybar))).sum
  let sxy : ℚ := (pts.map (fun p => (p.1 - xbar) * (p.2 - ybar))).sum
  { intercept := ybar - sxy / sxx * xbar
    slope := sxy / sxx
    r2 := sxy * sxy / (sxx * syy) }

/-- `HFModel.infer_best_batch_size_by_heuristics` (source lines
586-611): bucket the parameter count (in billions) into four bands and
floor-divide the available memory by the per-sequence assumption of
the band; the result is clamped to a minimum of 1 by
`max(batch, 1)`. -/
def infer_best_batch_size_by_heuristics (parameters_count : ℚ)
    (available_memory : ℚ) : ℤ :=
  let batch : ℤ :=
    if parameters_count < 5 then Int.floor (available_memory / 0.5)
    else if parameters_count < 10 then Int.floor (available_memory / 1)
    else if parameters_count < 20 then Int.floor (available_memory / 2)
    else Int.floor (available_memory / 3)
  max batch 1

/-- `HFModel.infer_best_batch_size` (source lines 520-583).  The
`table` argument models the persisted estimator file (`none` is the
`FileNotFoundError` fallback), `available_memory` the quantity
`memory * 0.85 - self.get_max_device_memory_footprint()` which the
spec exposes as the `available_memory_gb` input of the estimator
contract.  On the empirical path the source returns
`int(available_memory // memory_needed)` with no lower clamp. -/
def infer_best_batch_size (table : Option FootprintTable)
    (parameters_count : ℚ) (available_memory : ℚ)
    (input_size : ℕ) (max_new_tokens : ℕ) : ℤ :=
  match table with
  | none => infer_best_batch_size_by_heuristics parameters_count available_memory
  | some t =>
    let fit := linregress (sortByFst t.points)
    let sequence_length : ℚ :=
      if t.only_scale_with_input_size then input_size
      else (input_size : ℚ) + max_new_tokens
    if fit.r2 ≥ 0.95 then
      Int.floor (available_memory / (fit.intercept + fit.slope * sequence_length))
    else
      infer_best_batch_size_by_heuristics parameters_count available_memory

/-- The multi-pass batch plan built by `generate_text` (source lines
470-477): `num_return_sequences // batch_size` full batches of
`batch_size`, plus the nonzero remainder last; a request that fits in
one batch is the one-element plan. -/
def batchPlan (num_return_sequences : ℕ) (batch_size : ℕ) : List ℕ :=
  if batch_size < num_return_sequences then
    let bs := List.replicate (num_return_sequences / batch_size) batch_size
    if num_return_sequences % batch_size ≠ 0 then
      bs ++ [num_return_sequences % batch_size]
    else bs
  else
    [num_return_sequences]

/-- Outcome of one `model.generate` call, as distinguished by the
`except RuntimeError` handler of `oom_safe_batch_generation`:
success, `torch.cuda.OutOfMemoryError`, or any other runtime error. -/
inductive GenResult (α : Type) where
  | ok (out : α)
  | oom
  | otherError

/-- Final outcome of `oom_safe_batch_generation`: the successful
output together with the batch size that succeeded, the unrecoverable
error raised when a batch size of 1 still OOMs, or a re-raised
non-OOM runtime error. -/
inductive RunOutcome (α : Type) where
  | success (out : α) (effective_batch_size : ℕ)
  | unrecoverableOOM
  | propagated

/-- Observable trace of one `oom_safe_batch_generation` run: the batch
sizes handed to `model.generate` in order, the `(old, new)` pairs of
each batch-size-reduction warning, the number of explicit memory
releases (`gc.collect()` + `torch.cuda.empty_cache()` pairs), and the
final outcome. -/
structure ExecTrace (α : Type) where
  attempts : List ℕ
  warnings : List (ℕ × ℕ)
  memory_releases : ℕ
  result : RunOutcome α

/-- The batch-size reduction `max(1, math.floor(batch_size * 0.8))`.
For every Python int `b`, the double `b * 0.8` rounds to a value whose
floor is `floor(4 * b / 5)` (the representation error of the double
0.8 is `1 / (5 * 2 ^ 52)`, too small to push `b * 0.8` past the next
integer), so natural division by 5 is an exact model. -/
def shrinkBatch (b : ℕ) : ℕ := max 1 (4 * b / 5)

/-- `HFModel.oom_safe_batch_generation` (source lines 614-646), with
`model.generate` abstracted as the oracle `gen` keyed by the batch
size.  On success or a non-OOM error the call returns immediately; on
an OOM with batch size 1 it raises the unrecoverable error, and
otherwise it warns, releases memory, and re-invokes itself at the
shrunken batch size. -/
def oom_safe_batch_generation {α : Type} (gen : ℕ → GenResult α)
    (batch_size : ℕ) : ExecTrace α :=
  match gen batch_size with
  | GenResult.ok out => ⟨[batch_size], [], 0, RunOutcome.success out batch_size⟩
  | GenResult.otherError => ⟨[batch_size], [], 0, RunOutcome.propagated⟩
  | GenResult.oom =>
    if h : batch_size = 1 then
      ⟨[batch_size], [], 0, RunOutcome.unrecoverableOOM⟩
    else
      let new_batch_size := shrinkBatch batch_size
      let t := oom_safe_batch_generation gen new_batch_size
      ⟨batch_size :: t.attempts, (batch_size, new_batch_size) :: t.warnings,
       t.memory_releases + 1, t.result⟩
termination_by (if batch_size = 0 then 2 else batch_size)
decreasing_by
  simp only [shrinkBatch, Nat.max_def]
  split <;> split <;> split <;> omega

/-- The nine token-identifier sources `create_generation_config` reads
from the model and tokenizer collaborators: for each of eos, bos and
pad, the value declared by `model.generation_config`, by
`model.config`, and by the tokenizer (`none` models a Python
`None`). -/
structure ModelTokenIds where
  gen_eos : Option ℤ
  gen_bos : Option ℤ
  gen_pad : Option ℤ
  cfg_eos : Option ℤ
  cfg_bos : Option ℤ
  cfg_pad : Option ℤ
  tok_eos : Option ℤ
  tok_bos : Option ℤ
  tok_pad : Option ℤ

/-- The three-way `if ... is not None / elif ... / elif ...` chain of
`create_generation_config`: first non-missing value wins, `none` if
all three are missing. -/
def resolveFirst (a b c : Option ℤ) : Option ℤ :=
  match a with
  | some v => some v
  | none =>
    match b with
    | some v => some v
    | none => c

/-- The resolved generation config.  The sampling hyperparameters are
`none` when the corresponding attribute was never set by
`GenerationConfig.update` (which the source calls only when sampling
is enabled), and `some v` when `update` set it to `v` (itself an
optional value in the source signature). -/
structure GenerationConfig where
  eos_token_id : ℤ
  bos_token_id : ℤ
  pad_token_id : ℤ
  max_new_tokens : ℕ
  min_new_tokens : ℕ
  do_sample : Bool
  top_k : Option (Option ℤ)
  top_p : Option (Option ℚ)
  temperature : Option ℚ

/-- Message of the `RuntimeError` raised when no eos id resolves. -/
def eosErrorMsg : String := "Impossible to find the eos_token_id."

/-- Message of the `RuntimeError` raised when no bos id resolves. -/
def bosErrorMsg : String := "Impossible to find the bos_token_id."

/-- Message of the `AssertionError` raised when
`generation_config.update` reports unused keyword arguments. -/
def typoErrorMsg : String := "There is a typo in some generation config parameters."

/-- The keyword names the source passes to `generation_config.update`
at its only call site: `update(top_k=top_k, top_p=top_p,
temperature=temperature)`. -/
def sourceUpdateNames : List String := ["top_k", "top_p", "temperature"]

/-- `HFModel.create_generation_config` (source lines 236-318).
`recognized` models which keyword names the collaborator
`GenerationConfig.update` accepts as attributes (it returns the
unrecognized ones, and the source asserts that none are returned);
`update_names` is the list of keyword names written at the update call
site, which in the source is `sourceUpdateNames`.  Steps, in source
order: a temperature of exactly 0 forces `do_sample = False`; eos,
bos and pad ids are resolved by `resolveFirst`; an unresolvable eos or
bos raises; an unresolvable pad falls back to the resolved eos; the
config is built, and when sampling is enabled the three sampling
hyperparameters are attached through `update`, whose unused-name
report must be empty. -/
def create_generation_config (ids : ModelTokenIds) (recognized : String → Bool)
    (update_names : List String) (max_new_tokens min_new_tokens : ℕ)
    (do_sample : Bool) (top_k : Option ℤ) (top_p : Option ℚ)
    (temperature : ℚ) : Except String GenerationConfig :=
  let do_sample := if temperature = 0 then false else do_sample
  match resolveFirst ids.gen_eos ids.cfg_eos ids.tok_eos with
  | none => Except.error eosErrorMsg
  | some eos_token_id =>
    match resolveFirst ids.gen_bos ids.cfg_bos ids.tok_bos with
    | none => Except.error bosErrorMsg
    | some bos_token_id =>
      let pad_token_id := (resolveFirst ids.gen_pad ids.cfg_pad ids.tok_pad).getD eos_token_id
      let generation_config : GenerationConfig :=
        ⟨eos_token_id, bos_token_id, pad_token_id, max_new_tokens, min_new_tokens,
         do_sample, none, none, none⟩
      if do_sample then
        let unused := update_names.filter (fun n => !recognized n)
        if unused.length = 0 then
          Except.ok { generation_config with
                        top_k := some top_k, top_p := some top_p,
                        temperature := some temperature }
        else Except.error typoErrorMsg
      else Except.ok generation_config

/-- Everything `generate_text` reads from its collaborators: the token
id sources and recognized update names for config building, the input
length produced by the tokenizer, the estimator inputs, and
`model.generate` as an oracle keyed by the requested number of
sequences (the prompt, config and stopping criteria are fixed for the
whole request and are absorbed into the oracle).  `decode` is the
per-row decoding/post-processing applied to each generated sequence
after the prompt tokens are dropped; it is row-wise and therefore
count-preserving, which is all the scheduler claims depend on. -/
structure Collaborator where
  ids : ModelTokenIds
  recognized : String → Bool
  input_length : ℕ
  table : Option FootprintTable
  parameters_count : ℚ
  available_memory : ℚ
  generate : ℕ → GenResult (List (List ℤ))
  decode : List ℤ → String

/-- Truncate the prompt from each output row and decode it:
`outputs[:, input_length:]` followed by the row-wise decoding of
`post_process_sequences` / `batch_decode`. -/
def decodeBatch (c : Collaborator) (outputs : List (List ℤ)) : List String :=
  outputs.map (fun row => c.decode (row.drop c.input_length))

/-- Message standing for a propagated `torch.cuda.OutOfMemoryError`. -/
def cudaOomMsg : String := "CUDA out of memory"

/-- Message standing for a propagated non-OOM `RuntimeError`. -/
def runtimeErrMsg : String := "RuntimeError"

/-- Message of the unrecoverable error raised when batch size 1 OOMs. -/
def oomFatalMsg : String :=
  "Even a batch size of 1 causes an OOM. Cannot generate with current config."

/-- Message standing for the `ZeroDivisionError` Python raises at
`num_return_sequences // batch_size` when the batch size is 0. -/
def zeroDivisionMsg : String := "ZeroDivisionError"

/-- Message standing for the `IndexError` of `generated_text[0]` on an
empty list. -/
def indexErrMsg : String := "IndexError"

/-- The generation loop of `generate_text` (source lines 479-506) on
all batches after the first: the first plan entry reuses
`first_output`, later entries call `model.generate` directly (with no
OOM protection), and the decoded batches are concatenated in
submission order.  A failing later call raises. -/
def runRemainingBatches (c : Collaborator) : List ℕ → Except String (List String)
  | [] => Except.ok []
  | size :: rest =>
    match c.generate size with
    | GenResult.ok outputs =>
      (runRemainingBatches c rest).map (fun tail => decodeBatch c outputs ++ tail)
    | GenResult.oom => Except.error cudaOomMsg
    | GenResult.otherError => Except.error runtimeErrMsg

/-- The full batch loop: batch 0 reuses the OOM-safe first output,
the remaining plan entries run through `runRemainingBatches`. -/
def runBatches (c : Collaborator) (first_output : List (List ℤ))
    (sizes : List ℕ) : Except String (List String) :=
  match sizes with
  | [] => Except.ok []
  | _ :: rest =>
    (runRemainingBatches c rest).map (fun tail => decodeBatch c first_output ++ tail)

/-- What the post-collapse part of `generate_text` produces: the
returned value (a single string or an ordered list, source lines
508-512), the batch plan that was executed, and the OOM reduction
warnings of the first, OOM-safe batch. -/
structure CoreOutcome where
  value : String ⊕ List String
  batch_sizes : List ℕ
  oom_warnings : List (ℕ × ℕ)

/-- `generate_text` after the collapse adjustment (source lines
454-512): infer the batch size when the caller passed none, clamp it
to the number of requested sequences, run the first batch through the
OOM-safe executor, build the plan from the effective batch size, run
the remaining batches, and shape the final value (`generated_text[0]`
when exactly one sequence is produced). -/
def generate_text_core (c : Collaborator) (max_new_tokens : ℕ)
    (num_return_sequences : ℕ) (batch_size? : Option ℕ) :
    Except String CoreOutcome :=
  let batch_size0 : ℕ :=
    match batch_size? with
    | some b => b
    | none =>
      (infer_best_batch_size c.table c.parameters_count c.available_memory
        c.input_length max_new_tokens).toNat
  let batch_size1 := min batch_size0 num_return_sequences
  let t := oom_safe_batch_generation c.generate batch_size1
  match t.result with
  | RunOutcome.unrecoverableOOM => Except.error oomFatalMsg
  | RunOutcome.propagated => Except.error runtimeErrMsg
  | RunOutcome.success first_output effective_batch_size =>
    if effective_batch_size < num_return_sequences ∧ effective_batch_size = 0 then
      Except.error zeroDivisionMsg
    else
      let batch_sizes := batchPlan num_return_sequences effective_batch_size
      match runBatches c first_output batch_sizes with
      | Except.error e => Except.error e
      | Except.ok generated_text =>
        if num_return_sequences = 1 then
          match generated_text with
          | [] => Except.error indexErrMsg
          | s :: _ => Except.ok ⟨Sum.inl s, batch_sizes, t.warnings⟩
        else Except.ok ⟨Sum.inr generated_text, batch_sizes, t.warnings⟩

/-- Observable outcome of a `generate_text` request: advisory warnings
emitted by the orchestrator itself, OOM reduction warnings of the
first batch, the returned value (single string or ordered list), the
effective (post-collapse) number of return sequences, and the batch
plan. -/
structure GenerateTextOutcome where
  warnings : List String
  oom_warnings : List (ℕ × ℕ)
  value : String ⊕ List String
  effective_num_return_sequences : ℕ
  batch_sizes : List ℕ

/-- The advisory emitted when a greedy request for several sequences
is collapsed to one (source lines 426-428). -/
def collapseAdvisory : String :=
  "Greedy search with num_return_sequences greater than 1; all sequences would be identical, so num_return_sequences is set to 1"

/-- `HFModel.generate_text` (source lines 321-512), with prompt
formatting, tokenization and stopping criteria absorbed into the
collaborator (they shape only the fixed input of the generate oracle).
The config is built once; a request for several sequences with
sampling disabled is collapsed to one sequence with an advisory; the
rest is `generate_text_core`. -/
def generate_text (c : Collaborator) (max_new_tokens min_new_tokens : ℕ)
    (do_sample : Bool) (top_k : Option ℤ) (top_p : Option ℚ)
    (temperature : ℚ) (num_return_sequences : ℕ) (batch_size? : Option ℕ) :
    Except String GenerateTextOutcome :=
  match create_generation_config c.ids c.recognized sourceUpdateNames
      max_new_tokens min_new_tokens do_sample top_k top_p temperature with
  | Except.error e => Except.error e
  | Except.ok generation_config =>
    let collapse := decide (1 < num_return_sequences) && !generation_config.do_sample
    let warnings := if collapse then [collapseAdvisory] else []
    let num_ret := if collapse then 1 else num_return_sequences
    (generate_text_core c max_new_tokens num_ret batch_size?).map
      (fun core => ⟨warnings, core.oom_warnings, core.value, num_ret, core.batch_sizes⟩)

/-- Modelled from the spec: the prompt-template collaborator
(`engine/prompt_template.py`, outside `src/`) keeps a current `mode`;
`set_mode` sets it and `get_prompt` formats the prompt as a pure
function of the template state (represented by `build`) and its
arguments.  The spec treats prompt templating as an out-of-scope
collaborator, so only this mutable-mode interface is modelled. -/
structure GenericPromptTemplate where
  mode : String
  build : String → String → String → String → String → String

/-- The collaborator `set_mode`: update the current mode. -/
def set_mode (t : GenericPromptTemplate) (mode : String) : GenericPromptTemplate :=
  { t with mode := mode }

/-- The collaborator `get_prompt`: format under the current mode. -/
def get_prompt (t : GenericPromptTemplate) (prompt model_context suffix
    system_prompt : String) : String :=
  t.build t.mode prompt model_context suffix system_prompt

/-- `HFModel.format_prompt` (source lines 146-185), with the template
state passed explicitly: record the old mode, switch to the requested
mode, format, restore the recorded mode, and return the formatted
prompt together with the final template state. -/
def format_prompt (t : GenericPromptTemplate) (prompt model_context infill_suffix
    system_prompt prompt_template_mode : String) : String × GenericPromptTemplate :=
  let old_mode := t.mode
  let t1 := set_mode t prompt_template_mode
  let formatted_prompt := get_prompt t1 prompt model_context infill_suffix system_prompt
  let t2 := set_mode t1 old_mode
  (formatted_prompt, t2)

/-- The dynamically-typed `stopping_patterns` argument of
`create_stopping_criteria`: an explicit pattern list (the source
treats `list` and `tuple` identically), a boolean flag, or `None`. -/
inductive StoppingPatternsArg where
  | patterns (ps : List String)
  | flag (b : Bool)
  | noneArg

/-- Modelled from the spec: the opaque stopping-criteria collaborator
(`engine/stopping.py`, outside `src/`) is represented by the record of
arguments `create_stopping_criteria` constructs it with; the core
passes it through without inspecting it.  `τ` is the opaque tokenizer
type and `π` the opaque code-parser type. -/
structure TextPatternStopping (τ π : Type) where
  input_length : ℕ
  tokenizer : τ
  stopping_patterns : Option (List String)
  extra_eos_tokens : List String
  parser : Option π

/-- The `StoppingCriteriaList([...])` wrapper. -/
structure StoppingCriteriaList (τ π : Type) where
  criteria : List (TextPatternStopping τ π)

/-- `HFModel.create_stopping_criteria` (source lines 188-233), with
the module constant `EXTENDED_CODE_STOP_PATTERNS` of the external
stopping module passed in as `extended_code_stop_patterns`.  A list or
tuple of patterns builds criteria from them; `True` substitutes the
extended default patterns; anything else (`False` or `None`) sets the
patterns to `None` and builds criteria only from the extra eos tokens,
returning no criteria when there are none. -/
def create_stopping_criteria {τ π : Type} (input_length : ℕ) (tokenizer : τ)
    (extra_eos_tokens : List String) (extended_code_stop_patterns : List String)
    (stopping_patterns : StoppingPatternsArg) (parser : Option π) :
    Option (StoppingCriteriaList τ π) × Option (List String) :=
  match stopping_patterns with
  | StoppingPatternsArg.patterns ps =>
    (some ⟨[⟨input_length, tokenizer, some ps, extra_eos_tokens, parser⟩]⟩, some ps)
  | StoppingPatternsArg.flag true =>
    (some ⟨[⟨input_length, tokenizer, some extended_code_stop_patterns,
            extra_eos_tokens, parser⟩]⟩,
     some extended_code_stop_patterns)
  | StoppingPatternsArg.flag false =>
    if extra_eos_tokens.length = 0 then (none, none)
    else (some ⟨[⟨input_length, tokenizer, none, extra_eos_tokens, parser⟩]⟩, none)
  | StoppingPatternsArg.noneArg =>
    if extra_eos_tokens.length = 0 then (none, none)
    else (some ⟨[⟨input_length, tokenizer, none, extra_eos_tokens, parser⟩]⟩, none)

/-- Concrete calibration table used as failing input for the estimator
claim: two perfectly linear observations, as in the worked example of
the spec. -/
def tableW : FootprintTable := ⟨[(10, 2), (20, 4)], false⟩

/-- Oracle that always reports memory exhaustion. -/
def genOOMAlways : ℕ → GenResult (List (List ℤ)) := fun _ => GenResult.oom

/-- Oracle that reports memory exhaustion at batch sizes of 5 or more
and succeeds below that, returning one row per requested sequence. -/
def genOOMAbove5 : ℕ → GenResult (List (List ℤ)) := fun n =>
  if 5 ≤ n then GenResult.oom else GenResult.ok (List.replicate n [7])

/-- Oracle that always fails with a non-OOM runtime error. -/
def genErrAlways : ℕ → GenResult (List (List ℤ)) := fun _ => GenResult.otherError

/-- Concrete token-id sources: eos declared by the generation
defaults, bos by the static config, pad by the tokenizer. -/
def idsW : ModelTokenIds :=
  ⟨some 0, none, none, none, some 1, none, none, none, some 2⟩

/-- A collaborator update that recognizes every keyword name, as the
real `GenerationConfig.update` does for the three names the source
passes. -/
def recognizedW : String → Bool := fun _ => true

/-- A collaborator update that recognizes only `top_k`, standing for a
typo scenario in which the other two names are unknown. -/
def recognizedOnlyTopK : String → Bool := fun n => n == "top_k"

/-- Concrete collaborator for the orchestrator witnesses: empty
prompt, no calibration table, generation succeeding below batch size 5
with one row per requested sequence. -/
def collabW : Collaborator :=
  { ids := idsW, recognized := recognizedW, input_length := 0, table := none,
    parameters_count := 7, available_memory := 10, generate := genOOMAbove5,
    decode := fun _ => "x" }

/-- C1: the batch-size estimator is claimed to return at least 1 on
both of its paths, but the empirical linear-fit path has no clamp: at
the calibration table `[(10, 2.0), (20, 4.0)]` (perfect fit, r2 = 1),
available memory 1.0 GiB, input size 10 and 10 new tokens, the
predicted per-sequence memory is 4.0 GiB and the source returns
`int(1.0 // 4.0) = 0`. -/
theorem infer_best_batch_size_fit_path_zero :
    infer_best_batch_size (some tableW) 7 1 10 10 = 0 := by
  norm_num [infer_best_batch_size, tableW, sortByFst, insertByFst, linregress,
            infer_best_batch_size_by_heuristics]

/-- C2: for every requested count `N ≥ 1` and effective batch size
`B ≥ 1`, the plan built by `generate_text` sums exactly to `N`, every
entry is between 1 and `B`, and every entry other than the last equals
`B` (hence at most one entry is smaller than `B` and it is last). -/
theorem batchPlan_partition (N B : ℕ) (hN : 1 ≤ N) (hB : 1 ≤ B) :
    (batchPlan N B).sum = N ∧
    (∀ s ∈ batchPlan N B, 1 ≤ s ∧ s ≤ B) ∧
    ∀ i (h : i + 1 < (batchPlan N B).length),
      (batchPlan N B).get ⟨i, Nat.lt_of_succ_lt h⟩ = B := by
  have hdm := Nat.div_add_mod' N B
  by_cases hcmp : B < N
  · have hmod : N % B < B := Nat.mod_lt _ hB
    by_cases hr : N % B = 0
    · have hplan : batchPlan N B = List.replicate (N / B) B := by
        unfold batchPlan
        rw [if_pos hcmp, if_neg (by simp [hr])]
      rw [hplan]
      refine ⟨?_, ?_, ?_⟩
      · simp only [List.sum_replicate, smul_eq_mul]
        omega
      · intro s hs
        rcases List.eq_of_mem_replicate hs with rfl
        exact ⟨hB, le_refl _⟩
      · intro i h
        rw [List.get_eq_getElem]
        simp
    · have hplan : batchPlan N B = List.replicate (N / B) B ++ [N % B] := by
        unfold batchPlan
        rw [if_pos hcmp, if_pos hr]
      rw [hplan]
      refine ⟨?_, ?_, ?_⟩
      · simp only [List.sum_append, List.sum_replicate, smul_eq_mul,
                   List.sum_cons, List.sum_nil, Nat.add_zero]
        omega
      · intro s hs
        rcases List.mem_append.mp hs with hs | hs
        · rcases List.eq_of_mem_replicate hs with rfl
          exact ⟨hB, le_refl _⟩
        · simp at hs
          subst hs
          exact ⟨Nat.one_le_iff_ne_zero.mpr hr, le_of_lt hmod⟩
      · intro i h
        have hi : i < N / B := by
          simp at h
          omega
        rw [List.get_eq_getElem]
        rw [List.getElem_append_left (by simpa using hi)]
        simp
  · have hplan : batchPlan N B = [N] := by
      unfold batchPlan
      rw [if_neg hcmp]
    rw [hplan]
    refine ⟨by simp, ?_, ?_⟩
    · intro s hs
      simp at hs
      subst hs
      exact ⟨hN, Nat.not_lt.mp hcmp⟩
    · intro i h
      simp at h

/-- C2 witness: the worked plan of the spec, a request for 20
sequences at effective batch size 6. -/
theorem batchPlan_partition_witness :
    (batchPlan 20 6).sum = 20 ∧
    (∀ s ∈ batchPlan 20 6, 1 ≤ s ∧ s ≤ 6) ∧
    ∀ i (h : i + 1 < (batchPlan 20 6).length),
      (batchPlan 20 6).get ⟨i, Nat.lt_of_succ_lt h⟩ = 6 :=
  batchPlan_partition 20 6 (by decide) (by decide)

/-- The list of attempted batch sizes always begins with the batch
size the executor was invoked at. -/
theorem oom_safe_attempts_head {α : Type} (gen : ℕ → GenResult α) (b : ℕ) :
    (oom_safe_batch_generation gen b).attempts.head? = some b := by
  unfold oom_safe_batch_generation
  rcases hg : gen b with out | _ | _ <;> simp [hg]
  split <;> simp

/-- C3: on a failed generation call at batch size `b > 1` the executor
retries, after the reduction warning `(b, max 1 (floor (0.8 * b)))`
and exactly one memory release, at the new batch size
`max 1 (floor (0.8 * b))`, exactly when the failure is an OOM; any
other runtime error is propagated at once with no warning, no memory
release and no further attempt. -/
theorem oom_safe_retry_step {α : Type} (gen : ℕ → GenResult α) (b : ℕ) (hb : 1 < b) :
    (gen b = GenResult.oom →
      oom_safe_batch_generation gen b =
        ⟨b :: (oom_safe_batch_generation gen (max 1 (4 * b / 5))).attempts,
         (b, max 1 (4 * b / 5)) :: (oom_safe_batch_generation gen (max 1 (4 * b / 5))).warnings,
         (oom_safe_batch_generation gen (max 1 (4 * b / 5))).memory_releases + 1,
         (oom_safe_batch_generation gen (max 1 (4 * b / 5))).result⟩) ∧
    (gen b = GenResult.otherError →
      oom_safe_batch_generation gen b = ⟨[b], [], 0, RunOutcome.propagated⟩) := by
  have hb1 : ¬ b = 1 := by omega
  constructor
  · intro hg
    conv_lhs => unfold oom_safe_batch_generation
    simp only [hg, dif_neg hb1, shrinkBatch]
  · intro hg
    conv_lhs => unfold oom_safe_batch_generation
    simp only [hg]

/-- C3 witness: starting at batch size 10 against an oracle that OOMs
at size 5 and above, the executor attempts 10, 8, 6, 4, emitting three
reduction warnings and three memory releases; against an oracle that
raises a non-OOM error, it attempts 10 once and propagates. -/
theorem oom_safe_retry_step_witness :
    oom_safe_batch_generation genOOMAbove5 10 =
      ⟨[10, 8, 6, 4], [(10, 8), (8, 6), (6, 4)], 3,
        RunOutcome.success (List.replicate 4 [7]) 4⟩ ∧
    oom_safe_batch_generation genErrAlways 10 = ⟨[10], [], 0, RunOutcome.propagated⟩ := by
  constructor
  · rw [(oom_safe_retry_step genOOMAbove5 10 (by omega)).1 (by rfl)]
    simp [oom_safe_batch_generation, genOOMAbove5, shrinkBatch]
  · exact (oom_safe_retry_step genErrAlways 10 (by omega)).2 rfl

/-- C4: if every attempted batch size results in an OOM, the executor
run from any `b ≥ 1` produces a strictly decreasing list of attempted
batch sizes, never attempts a size below 1, reaches batch size 1 as
the final attempt within at most `b` attempts, and terminates with the
unrecoverable-OOM error. -/
theorem oom_safe_persistent_oom {α : Type} (gen : ℕ → GenResult α)
    (hoom : ∀ n, gen n = GenResult.oom) (b : ℕ) (hb : 1 ≤ b) :
    (oom_safe_batch_generation gen b).result = RunOutcome.unrecoverableOOM ∧
    List.Chain' (fun x y => y < x) (oom_safe_batch_generation gen b).attempts ∧
    (oom_safe_batch_generation gen b).attempts.getLast? = some 1 ∧
    (∀ a ∈ (oom_safe_batch_generation gen b).attempts, 1 ≤ a) ∧
    (oom_safe_batch_generation gen b).attempts.length ≤ b := by
  revert hb
  induction b using Nat.strong_induction_on with
  | _ b ih =>
    intro hb
    by_cases hb1 : b = 1
    · subst hb1
      have h1 : oom_safe_batch_generation gen 1 =
          ⟨[1], [], 0, RunOutcome.unrecoverableOOM⟩ := by
        unfold oom_safe_batch_generation
        simp [hoom 1]
      rw [h1]
      exact ⟨rfl, by simp, rfl, by simp, by simp⟩
    · have hb2 : 2 ≤ b := by omega
      have hnb1 : 1 ≤ shrinkBatch b := le_max_left 1 _
      have hnblt : shrinkBatch b < b := by
        have h45 : 4 * b / 5 < b := by omega
        exact max_lt (by omega) h45
      have hstep : oom_safe_batch_generation gen b =
          ⟨b :: (oom_safe_batch_generation gen (shrinkBatch b)).attempts,
           (b, shrinkBatch b) :: (oom_safe_batch_generation gen (shrinkBatch b)).warnings,
           (oom_safe_batch_generation gen (shrinkBatch b)).memory_releases + 1,
           (oom_safe_batch_generation gen (shrinkBatch b)).result⟩ := by
        conv_lhs => unfold oom_safe_batch_generation
        simp only [hoom b, dif_neg hb1]
      obtain ⟨IH1, IH2, IH3, IH4, IH5⟩ := ih (shrinkBatch b) hnblt hnb1
      rw [hstep]
      refine ⟨IH1, ?_, ?_, ?_, ?_⟩
      · rw [List.chain'_cons']
        refine ⟨?_, IH2⟩
        intro y hy
        rw [oom_safe_attempts_head] at hy
        simp at hy
        subst hy
        exact hnblt
      · rcases hA : (oom_safe_batch_generation gen (shrinkBatch b)).attempts with _ | ⟨a, tl⟩
        · have := oom_safe_attempts_head gen (shrinkBatch b)
          rw [hA] at this
          simp at this
        · rw [hA] at IH3
          simpa [List.getLast?_cons_cons] using IH3
      · intro a ha
        rcases List.mem_cons.mp ha with rfl | ha
        · exact hb
        · exact IH4 a ha
      · simp only [List.length_cons]
        omega

/-- C4 witness: persistent OOM from batch size 10. -/
theorem oom_safe_persistent_oom_witness :
    (oom_safe_batch_generation genOOMAlways 10).result = RunOutcome.unrecoverableOOM ∧
    List.Chain' (fun x y => y < x) (oom_safe_batch_generation genOOMAlways 10).attempts ∧
    (oom_safe_batch_generation genOOMAlways 10).attempts.getLast? = some 1 ∧
    (∀ a ∈ (oom_safe_batch_generation genOOMAlways 10).attempts, 1 ≤ a) ∧
    (oom_safe_batch_generation genOOMAlways 10).attempts.length ≤ 10 :=
  oom_safe_persistent_oom genOOMAlways (fun _ => rfl) 10 (by omega)

/-- The three-way if-chain picks exactly the first non-missing value
of the three sources. -/
theorem resolveFirst_eq_findSome (a b c : Option ℤ) :
    resolveFirst a b c = List.findSome? id [a, b, c] := by
  cases a <;> cases b <;> cases c <;> rfl

/-- Field values of a successfully built generation config: the
sampling flag is the caller flag overridden by a zero temperature, and
the three sampling hyperparameters are attached exactly when sampling
is enabled. -/
theorem create_generation_config_ok_fields
    (ids : ModelTokenIds) (recognized : String → Bool) (update_names : List String)
    (mnt mint : ℕ) (ds : Bool) (tk : Option ℤ) (tp : Option ℚ) (temp : ℚ)
    (cfg : GenerationConfig)
    (h : create_generation_config ids recognized update_names mnt mint ds tk tp temp =
      Except.ok cfg) :
    cfg.do_sample = (if temp = 0 then false else ds) ∧
    (cfg.do_sample = true →
      cfg.top_k = some tk ∧ cfg.top_p = some tp ∧ cfg.temperature = some temp) ∧
    (cfg.do_sample = false →
      cfg.top_k = none ∧ cfg.top_p = none ∧ cfg.temperature = none) := by
  unfold create_generation_config at h
  rcases h1 : resolveFirst ids.gen_eos ids.cfg_eos ids.tok_eos with _ | eos <;>
    simp only [h1] at h
  · exact absurd h (by simp)
  rcases h2 : resolveFirst ids.gen_bos ids.cfg_bos ids.tok_bos with _ | bos <;>
    simp only [h2] at h
  · exact absurd h (by simp)
  by_cases h0 : temp = 0
  · rw [if_pos h0] at h
    rw [if_neg (by simp)] at h
    injection h with h
    subst h
    exact ⟨by rw [if_pos h0], fun htrue => absurd htrue (by simp),
      fun _ => ⟨rfl, rfl, rfl⟩⟩
  · rw [if_neg h0] at h
    cases ds
    · rw [if_neg (by simp)] at h
      injection h with h
      subst h
      exact ⟨by rw [if_neg h0], fun htrue => absurd htrue (by simp),
        fun _ => ⟨rfl, rfl, rfl⟩⟩
    · rw [if_pos rfl] at h
      split at h
      · injection h with h
        subst h
        exact ⟨by rw [if_neg h0], fun _ => ⟨rfl, rfl, rfl⟩,
          fun hfalse => absurd hfalse (by simp)⟩
      · exact absurd h (by simp)

/-- C5: with the real update-call names (all recognized by the
collaborator), `create_generation_config` raises a configuration
error exactly when the eos or the bos identifier is missing from all
three sources; on success each identifier is the first non-missing
value in source order, and a missing pad identifier silently falls
back to the resolved eos identifier. -/
theorem create_generation_config_token_resolution
    (ids : ModelTokenIds) (recognized : String → Bool)
    (hrec : ∀ n ∈ sourceUpdateNames, recognized n = true)
    (mnt mint : ℕ) (ds : Bool) (tk : Option ℤ) (tp : Option ℚ) (temp : ℚ) :
    ((∃ e, create_generation_config ids recognized sourceUpdateNames mnt mint ds tk tp temp =
        Except.error e) ↔
      (List.findSome? id [ids.gen_eos, ids.cfg_eos, ids.tok_eos] = none ∨
       List.findSome? id [ids.gen_bos, ids.cfg_bos, ids.tok_bos] = none)) ∧
    (∀ cfg,
      create_generation_config ids recognized sourceUpdateNames mnt mint ds tk tp temp =
        Except.ok cfg →
      some cfg.eos_token_id = List.findSome? id [ids.gen_eos, ids.cfg_eos, ids.tok_eos] ∧
      some cfg.bos_token_id = List.findSome? id [ids.gen_bos, ids.cfg_bos, ids.tok_bos] ∧
      cfg.pad_token_id =
        (List.findSome? id [ids.gen_pad, ids.cfg_pad, ids.tok_pad]).getD
          cfg.eos_token_id) := by
  have hunused : sourceUpdateNames.filter (fun n => !recognized n) = [] := by
    rw [List.filter_eq_nil_iff]
    intro a ha
    simp [hrec a ha]
  rw [← resolveFirst_eq_findSome, ← resolveFirst_eq_findSome, ← resolveFirst_eq_findSome]
  rcases h1 : resolveFirst ids.gen_eos ids.cfg_eos ids.tok_eos with _ | eos
  · have hres : create_generation_config ids recognized sourceUpdateNames mnt mint ds
        tk tp temp = Except.error eosErrorMsg := by
      unfold create_generation_config
      simp only [h1]
    rw [hres]
    constructor
    · exact ⟨fun _ => Or.inl rfl, fun _ => ⟨eosErrorMsg, rfl⟩⟩
    · intro cfg hcfg
      exact absurd hcfg (by simp)
  rcases h2 : resolveFirst ids.gen_bos ids.cfg_bos ids.tok_bos with _ | bos
  · have hres : create_generation_config ids recognized sourceUpdateNames mnt mint ds
        tk tp temp = Except.error bosErrorMsg := by
      unfold create_generation_config
      simp only [h1, h2]
    rw [hres]
    constructor
    · exact ⟨fun _ => Or.inr rfl, fun _ => ⟨bosErrorMsg, rfl⟩⟩
    · intro cfg hcfg
      exact absurd hcfg (by simp)
  by_cases hds : (if temp = 0 then false else ds) = true
  · have hres : create_generation_config ids recognized sourceUpdateNames mnt mint ds
        tk tp temp =
        Except.ok ⟨eos, bos, (resolveFirst ids.gen_pad ids.cfg_pad ids.tok_pad).getD eos,
          mnt, mint, if temp = 0 then false else ds, some tk, some tp, some temp⟩ := by
      unfold create_generation_config
      simp only [h1, h2, hds, if_true, hunused, List.length_nil, if_pos rfl]
    rw [hres]
    refine ⟨⟨fun he => ?_, fun hor => ?_⟩, fun cfg hcfg => ?_⟩
    · obtain ⟨e, he⟩ := he
      exact absurd he (by simp)
    · rcases hor with hor | hor <;> exact absurd hor (by simp)
    · injection hcfg with hcfg
      subst hcfg
      exact ⟨rfl, rfl, rfl⟩
  · have hres : create_generation_config ids recognized sourceUpdateNames mnt mint ds
        tk tp temp =
        Except.ok ⟨eos, bos, (resolveFirst ids.gen_pad ids.cfg_pad ids.tok_pad).getD eos,
          mnt, mint, if temp = 0 then false else ds, none, none, none⟩ := by
      unfold create_generation_config
      simp only [h1, h2, if_neg hds]
    rw [hres]
    refine ⟨⟨fun he => ?_, fun hor => ?_⟩, fun cfg hcfg => ?_⟩
    · obtain ⟨e, he⟩ := he
      exact absurd he (by simp)
    · rcases hor with hor | hor <;> exact absurd hor (by simp)
    · injection hcfg with hcfg
      subst hcfg
      exact ⟨rfl, rfl, rfl⟩

/-- C5 witness: eos from the generation defaults, bos from the static
config, pad from the tokenizer; no error is raised. -/
theorem create_generation_config_token_resolution_witness :
    ((∃ e, create_generation_config idsW recognizedW sourceUpdateNames 60 5 true none none 1 =
        Except.error e) ↔
      (List.findSome? id [idsW.gen_eos, idsW.cfg_eos, idsW.tok_eos] = none ∨
       List.findSome? id [idsW.gen_bos, idsW.cfg_bos, idsW.tok_bos] = none)) ∧
    (∀ cfg,
      create_generation_config idsW recognizedW sourceUpdateNames 60 5 true none none 1 =
        Except.ok cfg →
      some cfg.eos_token_id = List.findSome? id [idsW.gen_eos, idsW.cfg_eos, idsW.tok_eos] ∧
      some cfg.bos_token_id = List.findSome? id [idsW.gen_bos, idsW.cfg_bos, idsW.tok_bos] ∧
      cfg.pad_token_id =
        (List.findSome? id [idsW.gen_pad, idsW.cfg_pad, idsW.tok_pad]).getD
          cfg.eos_token_id) :=
  create_generation_config_token_resolution idsW recognizedW (fun _ _ => rfl) 60 5 true
    none none 1

/-- C6: a temperature of exactly 0 forces the built config to have
sampling disabled regardless of the caller flag; the three sampling
hyperparameters are attached to the config exactly when sampling is
enabled; and when sampling is enabled and one of the names written at
the update call site is not recognized by the collaborator, the call
fails with a configuration error. -/
theorem create_generation_config_sampling_rules
    (ids : ModelTokenIds) (recognized : String → Bool) (update_names : List String)
    (mnt mint : ℕ) (ds : Bool) (tk : Option ℤ) (tp : Option ℚ) (temp : ℚ) :
    (temp = 0 →
      ∀ cfg, create_generation_config ids recognized update_names mnt mint ds tk tp temp =
        Except.ok cfg → cfg.do_sample = false) ∧
    (∀ cfg, create_generation_config ids recognized update_names mnt mint ds tk tp temp =
        Except.ok cfg →
      (cfg.do_sample = true →
        cfg.top_k = some tk ∧ cfg.top_p = some tp ∧ cfg.temperature = some temp) ∧
      (cfg.do_sample = false →
        cfg.top_k = none ∧ cfg.top_p = none ∧ cfg.temperature = none)) ∧
    ((if temp = 0 then false else ds) = true →
      (∃ n, n ∈ update_names ∧ recognized n = false) →
      ∃ e, create_generation_config ids recognized update_names mnt mint ds tk tp temp =
        Except.error e) := by
  refine ⟨?_, ?_, ?_⟩
  · intro h0 cfg hcfg
    have := (create_generation_config_ok_fields ids recognized update_names mnt mint ds
      tk tp temp cfg hcfg).1
    rw [this, if_pos h0]
  · intro cfg hcfg
    obtain ⟨_, h2, h3⟩ := create_generation_config_ok_fields ids recognized update_names
      mnt mint ds tk tp temp cfg hcfg
    exact ⟨h2, h3⟩
  · rintro hcond ⟨n, hn, hnr⟩
    unfold create_generation_config
    rcases h1 : resolveFirst ids.gen_eos ids.cfg_eos ids.tok_eos with _ | eos <;>
      simp only [h1]
    · exact ⟨eosErrorMsg, rfl⟩
    rcases h2 : resolveFirst ids.gen_bos ids.cfg_bos ids.tok_bos with _ | bos <;>
      simp only [h2]
    · exact ⟨bosErrorMsg, rfl⟩
    rw [if_pos hcond]
    have hne : ¬ (update_names.filter (fun m => !recognized m)).length = 0 := by
      intro h0
      rw [List.length_eq_zero] at h0
      have := List.filter_eq_nil_iff.mp h0 n hn
      simp [hnr] at this
    rw [if_neg hne]
    exact ⟨typoErrorMsg, rfl⟩

/-- C6 witness: a collaborator that recognizes only `top_k`, exercised
with sampling requested at temperature 1. -/
theorem create_generation_config_sampling_rules_witness :
    ((1 : ℚ) = 0 →
      ∀ cfg, create_generation_config idsW recognizedOnlyTopK sourceUpdateNames 60 5 true
        none none 1 = Except.ok cfg → cfg.do_sample = false) ∧
    (∀ cfg, create_generation_config idsW recognizedOnlyTopK sourceUpdateNames 60 5 true
        none none 1 = Except.ok cfg →
      (cfg.do_sample = true →
        cfg.top_k = some none ∧ cfg.top_p = some none ∧ cfg.temperature = some 1) ∧
      (cfg.do_sample = false →
        cfg.top_k = none ∧ cfg.top_p = none ∧ cfg.temperature = none)) ∧
    ((if (1 : ℚ) = 0 then false else true) = true →
      (∃ n, n ∈ sourceUpdateNames ∧ recognizedOnlyTopK n = false) →
      ∃ e, create_generation_config idsW recognizedOnlyTopK sourceUpdateNames 60 5 true
        none none 1 = Except.error e) :=
  create_generation_config_sampling_rules idsW recognizedOnlyTopK sourceUpdateNames 60 5
    true none none 1

/-- C9: `format_prompt` restores the recorded template mode before
returning, so the mode observed after the call equals the mode before
it, and the formatted prompt is produced under the requested mode. -/
theorem format_prompt_restores_mode (t : GenericPromptTemplate)
    (prompt model_context infill_suffix system_prompt prompt_template_mode : String) :
    (format_prompt t prompt model_context infill_suffix system_prompt
        prompt_template_mode).2.mode = t.mode ∧
    (format_prompt t prompt model_context infill_suffix system_prompt
        prompt_template_mode).1 =
      get_prompt (set_mode t prompt_template_mode) prompt model_context infill_suffix
        system_prompt :=
  ⟨rfl, rfl⟩

/-- C10: `create_stopping_criteria` treats `stopping_patterns = False`
exactly like `stopping_patterns = None`: both take the fall-through
branch that sets the patterns to `None` and builds criteria only from
the extra eos tokens, returning no criteria when there are none. -/
theorem create_stopping_criteria_false_matches_none {τ π : Type} (input_length : ℕ)
    (tokenizer : τ) (extra_eos_tokens : List String)
    (extended_code_stop_patterns : List String) (parser : Option π) :
    create_stopping_criteria input_length tokenizer extra_eos_tokens
        extended_code_stop_patterns (StoppingPatternsArg.flag false) parser =
      create_stopping_criteria input_length tokenizer extra_eos_tokens
        extended_code_stop_patterns StoppingPatternsArg.noneArg parser ∧
    (extra_eos_tokens = [] →
      create_stopping_criteria input_length tokenizer extra_eos_tokens
        extended_code_stop_patterns StoppingPatternsArg.noneArg parser = (none, none)) := by
  constructor
  · rfl
  · intro h
    subst h
    rfl

/-- C10 witness: one extra eos token, and separately the empty case
through the same theorem instantiated at an empty token list. -/
theorem create_stopping_criteria_false_matches_none_witness :
    (create_stopping_criteria 3 (0 : ℕ) ["t"] ["pat"] (StoppingPatternsArg.flag false)
        (none : Option ℕ) =
      create_stopping_criteria 3 (0 : ℕ) ["t"] ["pat"] StoppingPatternsArg.noneArg
        (none : Option ℕ)) ∧
    ((["t"] : List String) = [] →
      create_stopping_criteria 3 (0 : ℕ) ["t"] ["pat"] StoppingPatternsArg.noneArg
        (none : Option ℕ) = (none, none)) :=
  create_stopping_criteria_false_matches_none 3 0 ["t"] ["pat"] none

/-- A mapped `Except` that is `ok` comes from an `ok`. -/
theorem except_map_eq_ok {ε α β : Type} (f : α → β) (x : Except ε α) (b : β)
    (h : x.map f = Except.ok b) : ∃ a, x = Except.ok a ∧ b = f a := by
  cases x with
  | error e => simp [Except.map] at h
  | ok a =>
    refine ⟨a, rfl, ?_⟩
    simpa [Except.map] using h.symm

/-- The value returned by the post-collapse part of `generate_text` is
a single string exactly when the effective sequence count is 1. -/
theorem generate_text_core_value_shape (c : Collaborator) (mnt n : ℕ)
    (bs? : Option ℕ) (co : CoreOutcome)
    (h : generate_text_core c mnt n bs? = Except.ok co) :
    (co.value.isLeft = true ↔ n = 1) := by
  simp only [generate_text_core] at h
  split at h
  · exact absurd h (by simp)
  · exact absurd h (by simp)
  · split at h
    · exact absurd h (by simp)
    · split at h
      · exact absurd h (by simp)
      · split at h
        · rename_i hn1
          split at h
          · exact absurd h (by simp)
          · injection h with h
            subst h
            simp [hn1]
        · rename_i hn1
          injection h with h
          subst h
          simp [hn1]

/-- C7: a request for more than one sequence whose resolved config has
sampling disabled behaves exactly like the same request for one
sequence, except that the collapse advisory is prepended to the
warnings; in particular every successful outcome has effective count 1
and carries the advisory. -/
theorem generate_text_collapses_greedy_multi (c : Collaborator) (mnt mint : ℕ)
    (ds : Bool) (tk : Option ℤ) (tp : Option ℚ) (temp : ℚ) (N : ℕ) (bs? : Option ℕ)
    (hN : 1 < N) (hds : (if temp = 0 then false else ds) = false) :
    generate_text c mnt mint ds tk tp temp N bs? =
      (generate_text c mnt mint ds tk tp temp 1 bs?).map
        (fun o => { o with warnings := collapseAdvisory :: o.warnings }) ∧
    ∀ o, generate_text c mnt mint ds tk tp temp N bs? = Except.ok o →
      o.effective_num_return_sequences = 1 ∧ collapseAdvisory ∈ o.warnings := by
  unfold generate_text
  cases hc : create_generation_config c.ids c.recognized sourceUpdateNames mnt mint ds
      tk tp temp with
  | error e =>
    refine ⟨rfl, ?_⟩
    intro o ho
    exact absurd ho (by simp)
  | ok cfg =>
    have hcd : cfg.do_sample = false :=
      ((create_generation_config_ok_fields c.ids c.recognized sourceUpdateNames mnt mint
        ds tk tp temp cfg hc).1).trans hds
    simp only [hcd, Bool.not_false, Bool.and_true, decide_eq_true hN,
               decide_eq_false (by omega : ¬ (1:ℕ) < 1), Bool.false_and]
    simp only [if_pos rfl, Bool.false_eq_true, if_neg (by simp : ¬ False)]
    constructor
    · cases hcore : generate_text_core c mnt 1 bs? with
      | error e => simp [hcore, Except.map]
      | ok core => simp [hcore, Except.map]
    · intro o ho
      obtain ⟨core, hcore, hbo⟩ := except_map_eq_ok _ _ _ ho
      subst hbo
      exact ⟨rfl, by simp⟩

/-- C7 witness: a request for 3 sequences with sampling disabled
collapses to the 1-sequence run plus the advisory. -/
theorem generate_text_collapses_greedy_multi_witness :
    generate_text collabW 60 5 false none none 1 3 (some 4) =
      (generate_text collabW 60 5 false none none 1 1 (some 4)).map
        (fun o => { o with warnings := collapseAdvisory :: o.warnings }) ∧
    ∀ o, generate_text collabW 60 5 false none none 1 3 (some 4) = Except.ok o →
      o.effective_num_return_sequences = 1 ∧ collapseAdvisory ∈ o.warnings :=
  generate_text_collapses_greedy_multi collabW 60 5 false none none 1 3 (some 4)
    (by omega) (ite_self false)

/-- C8 counterexample: the original request asks for 3 sequences, yet
`generate_text` returns a single string, because the collapse rewrites
`num_return_sequences` before the final shape check reads it. -/
theorem generate_text_single_string_counterexample :
    generate_text collabW 60 5 false none none 1 3 (some 4) =
      Except.ok ⟨[collapseAdvisory], [], Sum.inl "x", 1, [1]⟩ := by
  simp [generate_text, create_generation_config, idsW, recognizedW, resolveFirst,
        collabW, generate_text_core, genOOMAbove5, oom_safe_batch_generation,
        batchPlan, runBatches, runRemainingBatches, decodeBatch, Except.map]

/-- C8 (amended): `generate_text` returns a single string rather than
a list exactly when the effective, post-collapse sequence count is 1 —
that is, when the caller asked for one sequence, or when a
multi-sequence request was collapsed because sampling is disabled; it
returns an ordered list exactly when the effective count differs
from 1. -/
theorem generate_text_return_shape (c : Collaborator) (mnt mint : ℕ) (ds : Bool)
    (tk : Option ℤ) (tp : Option ℚ) (temp : ℚ) (N : ℕ) (bs? : Option ℕ)
    (o : GenerateTextOutcome)
    (ho : generate_text c mnt mint ds tk tp temp N bs? = Except.ok o) :
    o.effective_num_return_sequences =
      (if 1 < N ∧ (if temp = 0 then false else ds) = false then 1 else N) ∧
    (o.value.isLeft = true ↔ o.effective_num_return_sequences = 1) := by
  unfold generate_text at ho
  cases hc : create_generation_config c.ids c.recognized sourceUpdateNames mnt mint ds
      tk tp temp with
  | error e =>
    rw [hc] at ho
    exact absurd ho (by simp)
  | ok cfg =>
    rw [hc] at ho
    have hcd := (create_generation_config_ok_fields c.ids c.recognized sourceUpdateNames
      mnt mint ds tk tp temp cfg hc).1
    obtain ⟨core, hcore, hbo⟩ := except_map_eq_ok _ _ _ ho
    subst hbo
    have hshape := generate_text_core_value_shape c mnt _ bs? core hcore
    constructor
    · show (if decide (1 < N) && !cfg.do_sample then 1 else N) = _
      rw [hcd]
      cases hx : (if temp = 0 then false else ds) with
      | false =>
        by_cases hN : 1 < N
        · simp [hN]
        · simp [hN]
      | true =>
        simp
    · simpa using hshape

/-- C8 witness: the amended shape law at the concrete collapsed run. -/
theorem generate_text_return_shape_witness :
    (⟨[collapseAdvisory], [], Sum.inl "x", 1, [1]⟩ :
        GenerateTextOutcome).effective_num_return_sequences =
      (if 1 < 3 ∧ (if (1 : ℚ) = 0 then false else false) = false then 1 else 3) ∧
    ((⟨[collapseAdvisory], [], Sum.inl "x", 1, [1]⟩ :
        GenerateTextOutcome).value.isLeft = true ↔
      (⟨[collapseAdvisory], [], Sum.inl "x", 1, [1]⟩ :
        GenerateTextOutcome).effective_num_return_sequences = 1) :=
  generate_text_return_shape collabW 60 5 false none none 1 3 (some 4) _
    (by simp [generate_text, create_generation_config, idsW, recognizedW, resolveFirst,
          collabW, generate_text_core, genOOMAbove5, oom_safe_batch_generation,
          batchPlan, runBatches, runRemainingBatches, decodeBatch, Except.map])
